import Mathlib

/-!
Verification of the browser-side trip-planner logic in
`static/js/app.js` (two concatenated variants of the script).

Shallow embedding conventions:
* JavaScript numbers appearing in the planner's data paths are modelled as
  `Option ℚ`: `some q` is a finite number of value `q`, `none` stands for
  any value whose `isNum` test fails in the source (null, undefined, NaN,
  ±Infinity, non-numbers).  All arithmetic the source performs on values
  that passed `isNum` is exact rational arithmetic.
* Arrays become `List`s; JS objects used as string-keyed maps become
  association lists; `key in m` is `lookup` success.
* DOM effects are modelled as pure state transformers on a record of the
  panel contents/visibility the handlers touch; `innerHTML` assignments are
  modelled by the text they display (markup elided).
-/

set_option autoImplicit false

namespace TripPlanner

/-- `isNum` from the source: `typeof x === "number" && Number.isFinite(x)`.
In the embedding a finite number is `some q`, anything else is `none`. -/
def isNum (x : Option ℚ) : Bool := x.isSome

/-- `clamp` from the source: `(v, lo, hi) => Math.max(lo, Math.min(hi, v))`. -/
def clamp (v lo hi : ℚ) : ℚ := max lo (min hi v)

/-- Threshold bounds `{min?, max?}` handed to the fallback estimator;
either bound may be absent or non-finite (`none`). -/
structure Thresholds where
  min : Option ℚ
  max : Option ℚ

/-- Climatology record for a factor; `pct_of_normal` may be missing or
non-numeric (`none`). -/
structure Climatology where
  pct_of_normal : Option ℚ

/-- `nearestBoundaryDistance(val, lo, hi)` from the source: `null` when
`val` is not finite or no bound is finite, otherwise the minimum of the
distances to the defined bounds. -/
def nearestBoundaryDistance (val lo hi : Option ℚ) : Option ℚ :=
  match val with
  | none => none
  | some v =>
    match lo, hi with
    | none, none => none
    | some l, none => some |v - l|
    | none, some h => some |v - h|
    | some l, some h => some (min |v - l| |v - h|)

/-- The climatology tweak set-up at the top of `fallbackFlipSeries`:
`tweakUp = 0.1` when `pct > 130 || pct < 70`, `tweakDown = 0.1` when
`pct <= 110 && pct >= 90`; both stay `0` when the climatology record or
its `pct_of_normal` is absent/non-finite.  Returns `(tweakUp, tweakDown)`. -/
def climTweaks (climForFactor : Option Climatology) : ℚ × ℚ :=
  match climForFactor with
  | none => (0, 0)
  | some c =>
    match c.pct_of_normal with
    | none => (0, 0)
    | some pct =>
      ((if 130 < pct ∨ pct < 70 then (1 : ℚ)/10 else 0),
       (if pct ≤ 110 ∧ 90 ≤ pct then (1 : ℚ)/10 else 0))

/-- `eps = 1e-6` in `fallbackFlipSeries`. -/
def eps : ℚ := 1/1000000

/-- The three slope statements of the loop body:
`let slope = 0; if (isNum(prev)) slope = max(slope, |v - prev|);
if (isNum(next)) slope = max(slope, |next - v|);`. -/
def loopSlope (prev next : Option ℚ) (v : ℚ) : ℚ :=
  let slope0 : ℚ := 0
  let slope1 : ℚ := match prev with | some p => max slope0 |v - p| | none => slope0
  match next with | some n => max slope1 |n - v| | none => slope1

/-- The body of the `for` loop of `fallbackFlipSeries` at index `i`:
computes `out[i]` from the value array, the tweaks and the thresholds. -/
def flipAt (arr : List (Option ℚ)) (tweakUp tweakDown : ℚ)
    (th : Thresholds) (i : ℕ) : Option ℚ :=
  match arr.getD i none with
  | none => none
  | some v =>
    let prev : Option ℚ := if 0 < i then arr.getD (i - 1) none else none
    let next : Option ℚ := if i + 1 < arr.length then arr.getD (i + 1) none else none
    let slope : ℚ := loopSlope prev next v
    match nearestBoundaryDistance (some v) th.min th.max with
    | none => none
    | some dist =>
      let p0 := clamp (slope / (dist + eps)) 0 1
      let p1 := if tweakUp ≠ 0 then clamp (p0 + tweakUp) 0 1 else p0
      let p2 := if tweakDown ≠ 0 then clamp (p1 - tweakDown) 0 1 else p1
      some p2

/-- `fallbackFlipSeries(values, th, climForFactor)` from the source: a
same-length array of per-hour flip probabilities, `null` where the value is
not finite or no threshold bound is defined. -/
def fallbackFlipSeries (values : List (Option ℚ)) (th : Thresholds)
    (climForFactor : Option Climatology) : List (Option ℚ) :=
  let tw := climTweaks climForFactor
  (List.range values.length).map (flipAt values tw.1 tw.2 th)

/-- Spec-side restatement (for the refinement claim C1) of the slope rule:
"local slope = max(|v − previous|, |v − next|) using only defined
neighbors; 0 if no neighbors are defined". -/
def specSlope (prev next : Option ℚ) (v : ℚ) : ℚ :=
  match prev, next with
  | none, none => 0
  | some p, none => |v - p|
  | none, some n => |v - n|
  | some p, some n => max |v - p| |v - n|

/-- Spec-side restatement (for C1) of the distance rule:
"min of |v − min| and |v − max| over the defined bounds". -/
def specDist (v : ℚ) (tmin tmax : Option ℚ) : Option ℚ :=
  match tmin, tmax with
  | none, none => none
  | some l, none => some |v - l|
  | none, some h => some |v - h|
  | some l, some h => some (min |v - l| |v - h|)

/-- Spec-side restatement (for C1) of the climatology nudges: "+0.1 when
pct_of_normal > 130 or < 70, −0.1 when pct_of_normal is within [90, 110],
re-clamping to [0, 1] after each nudge"; no nudge without a finite
pct_of_normal. -/
def specNudged (pct : Option ℚ) (p : ℚ) : ℚ :=
  let p1 : ℚ :=
    match pct with
    | some q => if 130 < q ∨ q < 70 then clamp (p + 1/10) 0 1 else p
    | none => p
  match pct with
  | some q => if 90 ≤ q ∧ q ≤ 110 then clamp (p1 - 1/10) 0 1 else p1
  | none => p1

/-- The climatology pct_of_normal actually available to a call:
present only when the record exists and the field is a finite number. -/
def climPct (clim : Option Climatology) : Option ℚ :=
  clim.bind Climatology.pct_of_normal

/-- A per-hour factor map (`hourly_factor_ok[i]`): a JS object keyed by
factor name.  `some true` / `some false` are the boolean values, `none`
is a present key bound to a non-boolean value. -/
abbrev HourMap : Type := List (String × Option Bool)

/-- `colorFromBoolMix(allTrue, anyFalse, anyUnknown)` from the source.
Note the source never reads `anyUnknown`. -/
def colorFromBoolMix (allTrue anyFalse anyUnknown : Bool) : String :=
  if anyFalse then "bad"
  else if allTrue then "good"
  else "warn"

/-- One iteration of the `for (const m of perHour)` loop of `factorColor`:
updates the `(allTrue, anyFalse, anyUnknown)` accumulator with hour map `m`.
`key in m` failing sets `anyUnknown` and skips the rest (`continue`). -/
def factorColorStep (key : String) (st : Bool × Bool × Bool) (m : HourMap) :
    Bool × Bool × Bool :=
  match m.lookup key with
  | none => (st.1, st.2.1, true)
  | some v =>
    ((st.1 && decide (v = some true)),
     (st.2.1 || decide (v = some false)),
     st.2.2)

/-- `factorColor(key)` from `renderConditions` (second variant): colors a
factor's condition box from the `hourly_factor_ok` per-hour maps. -/
def factorColor (key : String) (perHour : List HourMap) : String :=
  if perHour.length = 0 then "warn"
  else
    let st := perHour.foldl (factorColorStep key) (true, false, false)
    colorFromBoolMix st.1 st.2.1 st.2.2

/-- Truncation toward zero, as JavaScript division underlying `%` rounds. -/
def ratTrunc (q : ℚ) : ℤ := if q < 0 then ⌈q⌉ else ⌊q⌋

/-- The JavaScript remainder operator `x % y` (for finite operands,
`y ≠ 0`): `x - y * trunc(x / y)`, so the result takes the sign of `x`. -/
def jsRem (x y : ℚ) : ℚ := x - y * ratTrunc (x / y)

/-- `normalizeCoords(lat, lon)` from the source:
`lat' = Math.max(-90, Math.min(90, lat))`, `lon' = ((lon + 180) % 360) - 180`. -/
def normalizeCoords (lat lon : ℚ) : ℚ × ℚ :=
  (max (-90) (min 90 lat), jsRem (lon + 180) 360 - 180)

/-- A form-control string value, classified by its ECMAScript `Number()`
conversion: the empty string (whose `Number()` is `0`), a string whose
`Number()` is the finite number `q`, or a string whose `Number()` is
`NaN`/`±Infinity`. -/
inductive FormStr
  | empty
  | finiteNum (q : ℚ)
  | nonFinite

/-- ECMAScript `Number(v)` on a form-control string, returning `some` of
the finite result or `none` for `NaN`/`±Infinity`.  Per the standard,
`Number("")` is `+0`. -/
def jsNumber : FormStr → Option ℚ
  | .empty => some 0
  | .finiteNum q => some q
  | .nonFinite => none

/-- `num(id)` from the first variant:
`if (v === "" || v == null) return null; const n = Number(v); return Number.isFinite(n) ? n : null;`
(`val` always yields a string, so `v == null` never fires). -/
def num (v : FormStr) : Option ℚ :=
  match v with
  | .empty => none
  | _ => match jsNumber v with
         | some n => some n
         | none => none

/-- `numOrNull(v)` from the second variant:
`const n = Number(v); return Number.isFinite(n) ? n : null;`. -/
def numOrNull (v : FormStr) : Option ℚ :=
  match jsNumber v with
  | some n => some n
  | none => none

/-- The state the Run-button handlers read before deciding to send the
`/api/plan_trip` request: the selected coordinates and the two
`datetime-local` control strings (`""` when unset). -/
structure RunState where
  lat : Option ℚ
  lon : Option ℚ
  startLocal : String
  endLocal : String

/-- What a Run-button click does before/instead of the network call. -/
inductive RunOutcome
  | errNoLocation
  | errNoTimes
  | request (start_local end_local : String)
  deriving DecidableEq

/-- The validation head of the first variant's Run handler:
rejects when `current.lat == null || current.lon == null`, then when
`!start_local || !end_local`; otherwise issues the request. -/
def runHandler1 (s : RunState) : RunOutcome :=
  if s.lat = none ∨ s.lon = none then .errNoLocation
  else if s.startLocal = "" ∨ s.endLocal = "" then .errNoTimes
  else .request s.startLocal s.endLocal

/-- The validation head of the second variant's Run handler: rejects only
when `selected.lat == null || selected.lon == null`; the timestamps are
put in the payload unexamined and the request is always issued. -/
def runHandler2 (s : RunState) : RunOutcome :=
  if s.lat = none ∨ s.lon = none then .errNoLocation
  else .request s.startLocal s.endLocal

/-- The fields of a `/api/plan_trip` JSON response that the two handlers'
error paths read.  `none` models an absent field; the remaining payload
(hourly series, conditions, ...) is irrelevant to these paths and is
summarised by `summary`. -/
structure PlanResponse where
  ok : Bool
  error : Option String
  message : Option String
  no_data_for_window : Bool
  summary : String

/-- JavaScript `s || d` on an optional string field: the default replaces
both an absent field (`undefined`) and an empty string (both falsy). -/
def jsOr (s : Option String) (d : String) : String :=
  match s with
  | none => d
  | some s => if s = "" then d else s

/-- Template interpolation `${x}` of an optional string field:
an absent field prints as the text `undefined`. -/
def jsInterp (s : Option String) : String :=
  match s with
  | none => "undefined"
  | some s => s

/-- The DOM state the first variant's response handling touches: the error
banner (`showError`), the `planResult` text, and the visibility of the
condition and suggestion panels.  That file has no last-result slot and no
uncertainty panel. -/
structure UIState1 where
  errorBanner : Option String
  planResult : String
  condVisible : Bool
  suggestVisible : Bool
  deriving DecidableEq

/-- The DOM state the second variant's response handling touches, plus its
`lastResult` slot (modelled by the response stored) and the uncertainty
panel. -/
structure UIState2 where
  errorBanner : Option String
  planResult : String
  condVisible : Bool
  suggestVisible : Bool
  probVisible : Bool
  lastResult : Option PlanResponse

/-- The response branch of the first variant's Run handler
(`if (!json.ok) ...; if (json.no_data_for_window) ...; renderReport(json)`).
Returns the new UI state and whether control reached `renderReport`
(the downstream panels being rendered from the result). -/
def handlePlanResponse1 (r : PlanResponse) (ui : UIState1) : UIState1 × Bool :=
  if r.ok = false then
    ({ ui with
        errorBanner := some (jsOr r.error "Plan failed"),
        planResult := jsOr r.error "Plan failed",
        condVisible := false,
        suggestVisible := false }, false)
  else if r.no_data_for_window then
    ({ ui with
        planResult := jsInterp r.message,
        condVisible := false,
        suggestVisible := false }, false)
  else
    ({ ui with planResult := r.summary }, true)

/-- The response branch of the second variant's Run handler.  On `!j.ok`
only the error banner changes (`showError(j.message || "Plan error.")`);
on `no_data_for_window` the banner shows the message, `planResult` is
cleared, all three panels are hidden and `lastResult = null`; otherwise
`lastResult = j` and the renderers show the three panels. -/
def handlePlanResponse2 (r : PlanResponse) (ui : UIState2) : UIState2 × Bool :=
  if r.ok = false then
    ({ ui with errorBanner := some (jsOr r.message "Plan error.") }, false)
  else if r.no_data_for_window then
    ({ ui with
        errorBanner := some (jsOr r.message "No data available for this window."),
        planResult := "",
        condVisible := false,
        suggestVisible := false,
        probVisible := false,
        lastResult := none }, false)
  else
    ({ ui with
        planResult := r.summary,
        condVisible := true,
        suggestVisible := true,
        probVisible := true,
        lastResult := some r }, true)

/-! ## Helper lemmas -/

theorem getD_map_range {f : ℕ → Option ℚ} {n i : ℕ} (h : i < n) :
    ((List.range n).map f).getD i none = f i := by
  simp [List.getD_eq_getElem?_getD, List.getElem?_map, List.getElem?_range, h]

theorem getD_map_range_of_ge {f : ℕ → Option ℚ} {n i : ℕ} (h : ¬ i < n) :
    ((List.range n).map f).getD i none = none := by
  rw [List.getD_eq_getElem?_getD, List.getElem?_map,
    List.getElem?_eq_none (by simpa [List.length_range] using Nat.le_of_not_lt h)]
  rfl

theorem getD_lt_length {l : List (Option ℚ)} {i : ℕ} {v : ℚ}
    (h : l.getD i none = some v) : i < l.length := by
  by_contra hge
  rw [List.getD_eq_getElem?_getD, List.getElem?_eq_none (Nat.le_of_not_lt hge)] at h
  exact Option.noConfusion h

theorem fallbackFlipSeries_getD {values : List (Option ℚ)} {th : Thresholds}
    {clim : Option Climatology} {i : ℕ} (h : i < values.length) :
    (fallbackFlipSeries values th clim).getD i none =
      flipAt values (climTweaks clim).1 (climTweaks clim).2 th i := by
  unfold fallbackFlipSeries
  exact getD_map_range h

theorem clamp01_nonneg (v : ℚ) : 0 ≤ clamp v 0 1 := le_max_left 0 _

theorem clamp01_le_one (v : ℚ) : clamp v 0 1 ≤ 1 :=
  max_le zero_le_one (min_le_left 1 v)

theorem max_zero_abs (x : ℚ) : max 0 |x| = |x| := max_eq_right (abs_nonneg x)

theorem loopSlope_eq_specSlope (prev next : Option ℚ) (v : ℚ) :
    loopSlope prev next v = specSlope prev next v := by
  cases prev <;> cases next <;>
    simp [loopSlope, specSlope, abs_sub_comm v, max_zero_abs]

theorem nearestBoundaryDistance_some (v : ℚ) (lo hi : Option ℚ) :
    nearestBoundaryDistance (some v) lo hi = specDist v lo hi := by
  cases lo <;> cases hi <;> rfl

theorem flipAt_some_bounds {arr : List (Option ℚ)} {tu td : ℚ} {th : Thresholds}
    {i : ℕ} {p : ℚ} (h : flipAt arr tu td th i = some p) : 0 ≤ p ∧ p ≤ 1 := by
  unfold flipAt at h
  split at h
  · exact Option.noConfusion h
  · dsimp only at h
    split at h
    · exact Option.noConfusion h
    · injection h with h
      subst h
      split_ifs <;> exact ⟨clamp01_nonneg _, clamp01_le_one _⟩

theorem tweak_chain_eq_specNudged (clim : Option Climatology) (p : ℚ) :
    (if (climTweaks clim).2 ≠ 0
      then clamp ((if (climTweaks clim).1 ≠ 0
                    then clamp (p + (climTweaks clim).1) 0 1 else p) -
                  (climTweaks clim).2) 0 1
      else (if (climTweaks clim).1 ≠ 0
              then clamp (p + (climTweaks clim).1) 0 1 else p)) =
    specNudged (climPct clim) p := by
  match clim with
  | none => simp [climTweaks, specNudged, climPct]
  | some c =>
    match hq : c.pct_of_normal with
    | none => simp [climTweaks, specNudged, climPct, hq]
    | some q =>
      have hct : climTweaks (some c) =
          ((if 130 < q ∨ q < 70 then (1 : ℚ)/10 else 0),
           (if 90 ≤ q ∧ q ≤ 110 then (1 : ℚ)/10 else 0)) := by
        simp only [climTweaks, hq]
        exact congrArg _ (if_congr and_comm rfl rfl)
      have hcp : climPct (some c) = some q := by
        simp [climPct, hq]
      rw [hct, hcp]
      by_cases h1 : 130 < q ∨ q < 70 <;> by_cases h2 : 90 ≤ q ∧ q ≤ 110 <;>
        simp [specNudged, h1, h2]

/-! ## Claims -/

/-- C2 (code_bug exhibit): one hour whose `hourly_factor_ok` map lacks the
key entirely is colored "good" by `factorColor`, although the coloring rule
(and the source's own comment "yellow if mixed/unknown") requires "warn":
the loop's `continue` on a missing key leaves `allTrue` set, and
`colorFromBoolMix` ignores its `anyUnknown` argument. -/
theorem factorColor_missing_key_is_good :
    factorColor "temp" [([] : HourMap)] = "good" ∧ "good" ≠ "warn" := by
  exact ⟨rfl, by decide⟩

/-- C6 (code_bug exhibit): the second variant's `numOrNull` converts the
empty form string to `0` (since ECMAScript `Number("")` is `+0`, a finite
number), not to the "unset" `null` the rule demands; the first variant's
`num` handles the empty string correctly. -/
theorem numOrNull_empty_is_zero :
    numOrNull FormStr.empty = some 0 ∧ num FormStr.empty = none :=
  ⟨rfl, rfl⟩

/-- C7 (counterexample): the second variant's Run handler issues the
`/api/plan_trip` request even when both timestamp strings are empty, as
long as a location is selected — refuting the claim that missing
timestamps are caught with no network request sent. -/
theorem runHandler2_sends_with_empty_times :
    runHandler2 ⟨some 0, some 0, "", ""⟩ = RunOutcome.request "" "" := rfl

/-- C7 (amended): the first variant's Run handler sends no request when the
location or either timestamp is missing; the second variant checks only the
location and, given one, always issues the request with whatever timestamp
strings the controls hold. -/
theorem run_handler_validation (s : RunState) :
    ((s.lat = none ∨ s.lon = none ∨ s.startLocal = "" ∨ s.endLocal = "") →
      ∀ a b, runHandler1 s ≠ RunOutcome.request a b) ∧
    (s.lat ≠ none → s.lon ≠ none →
      runHandler2 s = RunOutcome.request s.startLocal s.endLocal) := by
  constructor
  · intro hmiss a b hreq
    unfold runHandler1 at hreq
    by_cases hloc : s.lat = none ∨ s.lon = none
    · rw [if_pos hloc] at hreq
      exact RunOutcome.noConfusion hreq
    · rw [if_neg hloc] at hreq
      by_cases ht : s.startLocal = "" ∨ s.endLocal = ""
      · rw [if_pos ht] at hreq
        exact RunOutcome.noConfusion hreq
      · rcases hmiss with h | h | h | h
        · exact hloc (Or.inl h)
        · exact hloc (Or.inr h)
        · exact ht (Or.inl h)
        · exact ht (Or.inr h)
  · intro hlat hlon
    unfold runHandler2
    rw [if_neg]
    rintro (h | h)
    · exact hlat h
    · exact hlon h

/-- C7 (witness for `run_handler_validation`): at a state with no location
and empty times the first handler sends nothing; at a complete state the
second handler issues the request. -/
theorem run_handler_validation_witness :
    runHandler1 ⟨none, some 0, "", ""⟩ ≠ RunOutcome.request "" "" ∧
    runHandler2 ⟨some 1, some 2, "a", "b"⟩ = RunOutcome.request "a" "b" :=
  ⟨(run_handler_validation ⟨none, some 0, "", ""⟩).1 (Or.inl rfl) "" "",
   (run_handler_validation ⟨some 1, some 2, "a", "b"⟩).2
     (by simp) (by simp)⟩

/-- C1: at every index whose value is a finite number and with at least one
finite threshold bound, `fallbackFlipSeries` returns exactly the claimed
formula: `clamp(slope / (dist + 1e-6), 0, 1)` with slope the max of
`|v − previous|`, `|v − next|` over the defined neighbors (0 with none) and
dist the min of `|v − min|`, `|v − max|` over the defined bounds, then the
+0.1 "unusual" and −0.1 "near normal" climatology nudges with re-clamping
after each. -/
theorem fallbackFlipSeries_spec_formula (values : List (Option ℚ))
    (th : Thresholds) (clim : Option Climatology) (i : ℕ) (v : ℚ)
    (hv : values.getD i none = some v)
    (hb : th.min ≠ none ∨ th.max ≠ none) :
    (fallbackFlipSeries values th clim).getD i none =
      some (specNudged (climPct clim)
        (clamp (specSlope (if 0 < i then values.getD (i - 1) none else none)
                  (if i + 1 < values.length then values.getD (i + 1) none else none)
                  v /
                ((specDist v th.min th.max).getD 0 + 1/1000000)) 0 1)) := by
  rw [fallbackFlipSeries_getD (getD_lt_length hv)]
  unfold flipAt
  rw [hv]
  dsimp only
  rw [nearestBoundaryDistance_some]
  have hd : ∃ d : ℚ, specDist v th.min th.max = some d := by
    rcases hmin : th.min with _ | l <;> rcases hmax : th.max with _ | h
    · rcases hb with hb | hb
      · exact absurd hmin hb
      · exact absurd hmax hb
    · exact ⟨_, rfl⟩
    · exact ⟨_, rfl⟩
    · exact ⟨_, rfl⟩
  obtain ⟨d, hd⟩ := hd
  rw [hd]
  dsimp only
  rw [loopSlope_eq_specSlope]
  have heps : eps = 1/1000000 := rfl
  rw [heps]
  dsimp only [Option.getD]
  exact congrArg some (tweak_chain_eq_specNudged clim _)

/-- C1 (witness for `fallbackFlipSeries_spec_formula`): the two-point series
`[1, 3]` with lower bound 0 and no climatology, at index 0. -/
theorem fallbackFlipSeries_spec_formula_witness :
    (fallbackFlipSeries [some 1, some 3] ⟨some 0, none⟩ none).getD 0 none =
      some (specNudged (climPct none)
        (clamp (specSlope (if 0 < 0 then [some (1:ℚ), some 3].getD (0 - 1) none else none)
                  (if 0 + 1 < [some (1:ℚ), some 3].length
                    then [some (1:ℚ), some 3].getD (0 + 1) none else none)
                  1 /
                ((specDist 1 (some 0) none).getD 0 + 1/1000000)) 0 1)) :=
  fallbackFlipSeries_spec_formula [some 1, some 3] ⟨some 0, none⟩ none 0 1 rfl
    (Or.inl (by simp))

/-- C4: the fallback series has the length of its input, and an entry is
`null` exactly when the value there is not a finite number or neither
threshold bound is a finite number. -/
theorem fallbackFlipSeries_length_null_iff (values : List (Option ℚ))
    (th : Thresholds) (clim : Option Climatology) :
    (fallbackFlipSeries values th clim).length = values.length ∧
    ∀ i : ℕ, i < values.length →
      ((fallbackFlipSeries values th clim).getD i none = none ↔
        (values.getD i none = none ∨ (th.min = none ∧ th.max = none))) := by
  constructor
  · simp [fallbackFlipSeries]
  · intro i hi
    rw [fallbackFlipSeries_getD hi]
    unfold flipAt
    rcases hv : values.getD i none with _ | v
    · simp
    · dsimp only
      rw [nearestBoundaryDistance_some]
      rcases hmin : th.min with _ | l <;> rcases hmax : th.max with _ | h <;>
        simp [specDist, hmin, hmax]

/-- C4 (witness for `fallbackFlipSeries_length_null_iff`): a three-point
series with one non-finite value and a defined max bound, at the
non-finite index. -/
theorem fallbackFlipSeries_length_null_iff_witness :
    (fallbackFlipSeries [some 1, none, some 2] ⟨none, some 5⟩ none).length =
        [some (1:ℚ), none, some 2].length ∧
      ((fallbackFlipSeries [some 1, none, some 2] ⟨none, some 5⟩ none).getD 1 none = none ↔
        ([some (1:ℚ), none, some 2].getD 1 none = none ∨
          ((none : Option ℚ) = none ∧ (some (5:ℚ) : Option ℚ) = none))) :=
  ⟨(fallbackFlipSeries_length_null_iff [some 1, none, some 2] ⟨none, some 5⟩ none).1,
   (fallbackFlipSeries_length_null_iff [some 1, none, some 2] ⟨none, some 5⟩ none).2 1
     (by decide)⟩

/-- C5: every non-null entry produced by `fallbackFlipSeries` lies in
`[0, 1]`, for every value series, threshold configuration and climatology:
the raw ratio is clamped and each nudge re-clamps. -/
theorem fallbackFlipSeries_mem_unit (values : List (Option ℚ))
    (th : Thresholds) (clim : Option Climatology) (i : ℕ) (p : ℚ)
    (h : (fallbackFlipSeries values th clim).getD i none = some p) :
    0 ≤ p ∧ p ≤ 1 := by
  by_cases hi : i < values.length
  · rw [fallbackFlipSeries_getD hi] at h
    exact flipAt_some_bounds h
  · rw [fallbackFlipSeries, getD_map_range_of_ge (by simpa using hi)] at h
    exact Option.noConfusion h

/-- C3 (counterexample): `normalizeCoords(0, -190)` returns longitude
`-190`, outside `[-180, 180)`: the JavaScript `%` takes the dividend's
sign, so `((-190 + 180) % 360) - 180 = -10 - 180 = -190`. -/
theorem normalizeCoords_neg190_out_of_range :
    (normalizeCoords 0 (-190)).2 = -190 ∧ ¬ (-180 ≤ (normalizeCoords 0 (-190)).2) := by
  have h : (normalizeCoords 0 (-190)).2 = -190 := by
    show jsRem ((-190 : ℚ) + 180) 360 - 180 = -190
    rw [jsRem, ratTrunc, if_pos (by norm_num : ((-190 : ℚ) + 180) / 360 < 0)]
    rw [show ⌈((-190 : ℚ) + 180) / 360⌉ = 0 from by
      rw [Int.ceil_eq_zero_iff]
      constructor <;> norm_num]
    norm_num
  exact ⟨h, by rw [h]; norm_num⟩

/-- C3 (amended): the returned latitude is the input clamped to
`[-90, 90]` — `-90` for inputs at or below `-90`, `90` for inputs at or
above `90`, the input itself in between — and the returned longitude is
always congruent to the input modulo 360; it lies in `[-180, 180)`
whenever the input longitude is at least `-180` (for smaller inputs it can
fall outside the range, as at `-190`). -/
theorem normalizeCoords_spec (lat lon : ℚ) :
    ((-90 ≤ (normalizeCoords lat lon).1 ∧ (normalizeCoords lat lon).1 ≤ 90) ∧
      (lat ≤ -90 → (normalizeCoords lat lon).1 = -90) ∧
      (90 ≤ lat → (normalizeCoords lat lon).1 = 90) ∧
      (-90 ≤ lat → lat ≤ 90 → (normalizeCoords lat lon).1 = lat)) ∧
    (∃ k : ℤ, (normalizeCoords lat lon).2 = lon - 360 * k) ∧
    (-180 ≤ lon →
      -180 ≤ (normalizeCoords lat lon).2 ∧ (normalizeCoords lat lon).2 < 180) := by
  refine ⟨⟨⟨le_max_left _ _, max_le (by norm_num) (min_le_left _ _)⟩,
    ?_, ?_, ?_⟩, ?_, ?_⟩
  · intro h
    show max (-90) (min 90 lat) = -90
    rw [min_eq_right (le_trans h (by norm_num)), max_eq_left h]
  · intro h
    show max (-90) (min 90 lat) = 90
    rw [min_eq_left h]
    exact max_eq_right (by norm_num)
  · intro h1 h2
    show max (-90) (min 90 lat) = lat
    rw [min_eq_right h2, max_eq_right h1]
  · refine ⟨ratTrunc ((lon + 180) / 360), ?_⟩
    show jsRem (lon + 180) 360 - 180 = _
    rw [jsRem]
    ring
  · intro hlon
    have hx : (0 : ℚ) ≤ (lon + 180) / 360 := by
      apply div_nonneg _ (by norm_num)
      linarith
    have ht : ratTrunc ((lon + 180) / 360) = ⌊(lon + 180) / 360⌋ := by
      rw [ratTrunc, if_neg (not_lt.mpr hx)]
    show -180 ≤ jsRem (lon + 180) 360 - 180 ∧ jsRem (lon + 180) 360 - 180 < 180
    rw [jsRem, ht]
    have key : lon + 180 - 360 * (⌊(lon + 180) / 360⌋ : ℚ) =
        360 * Int.fract ((lon + 180) / 360) := by
      rw [← Int.self_sub_floor ((lon + 180) / 360)]
      field_simp
    have hf0 := Int.fract_nonneg ((lon + 180) / 360)
    have hf1 := Int.fract_lt_one ((lon + 180) / 360)
    constructor <;> nlinarith [key]

/-- C3 (witness for `normalizeCoords_spec`): the spec's end-to-end example
`(91, 190)` — latitude 91 saturates to 90 and longitude 190 lands in
`[-180, 180)` (indeed at −170) — together with the low-saturation input
−91 → −90 and the in-range input 45 → 45. -/
theorem normalizeCoords_spec_witness :
    (normalizeCoords 91 190).1 = 90 ∧
    (normalizeCoords (-91) 190).1 = -90 ∧
    (normalizeCoords 45 190).1 = 45 ∧
    (-180 ≤ (normalizeCoords 91 190).2 ∧ (normalizeCoords 91 190).2 < 180) :=
  ⟨(normalizeCoords_spec 91 190).1.2.2.1 (by norm_num),
   (normalizeCoords_spec (-91) 190).1.2.1 (by norm_num),
   (normalizeCoords_spec 45 190).1.2.2.2 (by norm_num) (by norm_num),
   (normalizeCoords_spec 91 190).2.2 (by norm_num)⟩

/-- C5 (witness for `fallbackFlipSeries_mem_unit`): the series `[1, 3]`
with lower bound 0 has slope 2 at distance 1, so the raw ratio exceeds 1
and is clamped to exactly 1 — inside `[0, 1]`. -/
theorem fallbackFlipSeries_mem_unit_witness :
    (0 : ℚ) ≤ 1 ∧ (1 : ℚ) ≤ 1 :=
  fallbackFlipSeries_mem_unit [some 1, some 3] ⟨some 0, none⟩ none 0 1 (by
    rw [fallbackFlipSeries_getD (by norm_num)]
    unfold flipAt
    show (match nearestBoundaryDistance (some 1) (some 0) none with
      | none => none
      | some dist =>
        some (if (climTweaks none).2 ≠ 0
          then clamp ((if (climTweaks none).1 ≠ 0
            then clamp (clamp (loopSlope none (some 3) 1 / (dist + eps)) 0 1 +
              (climTweaks none).1) 0 1
            else clamp (loopSlope none (some 3) 1 / (dist + eps)) 0 1) -
              (climTweaks none).2) 0 1
          else (if (climTweaks none).1 ≠ 0
            then clamp (clamp (loopSlope none (some 3) 1 / (dist + eps)) 0 1 +
              (climTweaks none).1) 0 1
            else clamp (loopSlope none (some 3) 1 / (dist + eps)) 0 1))) = some 1
    rw [show nearestBoundaryDistance (some 1) (some 0) none = some 1 by
      simp [nearestBoundaryDistance]]
    have h0 : loopSlope none (some 3) (1 : ℚ) = 2 := by
      norm_num [loopSlope]
    simp only [climTweaks, ne_eq, not_true_eq_false, if_false, h0, eps]
    rw [clamp, min_eq_left (by norm_num)]
    norm_num)

/-- C8 (counterexample): on the response `{ok:false, error:"X"}` the second
variant's handler displays `"Plan error."` — it reads `j.message`, which is
absent — instead of `"X"`, and leaves the condition panel visible: the
`!j.ok` branch only calls `showError` and returns. -/
theorem handle2_ok_false_shows_default_keeps_panels :
    (handlePlanResponse2 ⟨false, some "X", none, false, ""⟩
        ⟨none, "", true, true, false, none⟩).1.errorBanner = some "Plan error." ∧
    some "Plan error." ≠ some "X" ∧
    (handlePlanResponse2 ⟨false, some "X", none, false, ""⟩
        ⟨none, "", true, true, false, none⟩).1.condVisible = true ∧
    (handlePlanResponse2 ⟨false, some "X", none, false, ""⟩
        ⟨none, "", true, true, false, none⟩).1.suggestVisible = true :=
  ⟨rfl, by decide, rfl, rfl⟩

/-- C8 (amended): on an `ok:false` response the first variant's handler
shows the response's `error` field (default "Plan failed") in both the
banner and the result line and hides the condition and suggestion panels;
the second variant's handler shows the response's `message` field (default
"Plan error."), not its `error` field, and leaves every panel's visibility
unchanged.  Neither proceeds to render the result. -/
theorem plan_failure_rendering (r : PlanResponse) (ui1 : UIState1)
    (ui2 : UIState2) (hok : r.ok = false) :
    ((handlePlanResponse1 r ui1).1.errorBanner = some (jsOr r.error "Plan failed") ∧
     (handlePlanResponse1 r ui1).1.planResult = jsOr r.error "Plan failed" ∧
     (handlePlanResponse1 r ui1).1.condVisible = false ∧
     (handlePlanResponse1 r ui1).1.suggestVisible = false ∧
     (handlePlanResponse1 r ui1).2 = false) ∧
    ((handlePlanResponse2 r ui2).1.errorBanner = some (jsOr r.message "Plan error.") ∧
     (handlePlanResponse2 r ui2).1.planResult = ui2.planResult ∧
     (handlePlanResponse2 r ui2).1.condVisible = ui2.condVisible ∧
     (handlePlanResponse2 r ui2).1.suggestVisible = ui2.suggestVisible ∧
     (handlePlanResponse2 r ui2).1.probVisible = ui2.probVisible ∧
     (handlePlanResponse2 r ui2).2 = false) := by
  simp [handlePlanResponse1, handlePlanResponse2, hok]

/-- C8 (witness for `plan_failure_rendering`): the `{ok:false, error:"X"}`
response against a state with both panels visible. -/
theorem plan_failure_rendering_witness :
    (handlePlanResponse1 ⟨false, some "X", none, false, ""⟩
        ⟨none, "", true, true⟩).1.condVisible = false ∧
    (handlePlanResponse2 ⟨false, some "X", none, false, ""⟩
        ⟨none, "", true, true, true, none⟩).2 = false :=
  ⟨(plan_failure_rendering ⟨false, some "X", none, false, ""⟩
      ⟨none, "", true, true⟩ ⟨none, "", true, true, true, none⟩ rfl).1.2.2.1,
   (plan_failure_rendering ⟨false, some "X", none, false, ""⟩
      ⟨none, "", true, true⟩ ⟨none, "", true, true, true, none⟩ rfl).2.2.2.2.2.2⟩

/-- C9: on a response carrying `ok:true`, `no_data_for_window:true` and a
non-empty `message:"Y"` (the shape the backend sends for this soft
failure; an `ok`-false response would be caught by the preceding branch),
both handlers display "Y" and render nothing downstream: the first shows
"Y" in the result line and hides the condition and suggestion panels; the
second shows "Y" in the banner, clears the result line, hides all three
panels and nulls the `lastResult` slot. -/
theorem no_data_rendering (r : PlanResponse) (ui1 : UIState1) (ui2 : UIState2)
    (m : String) (hok : r.ok = true) (hnd : r.no_data_for_window = true)
    (hm : r.message = some m) (hne : m ≠ "") :
    ((handlePlanResponse1 r ui1).1.planResult = m ∧
     (handlePlanResponse1 r ui1).1.condVisible = false ∧
     (handlePlanResponse1 r ui1).1.suggestVisible = false ∧
     (handlePlanResponse1 r ui1).2 = false) ∧
    ((handlePlanResponse2 r ui2).1.errorBanner = some m ∧
     (handlePlanResponse2 r ui2).1.planResult = "" ∧
     (handlePlanResponse2 r ui2).1.condVisible = false ∧
     (handlePlanResponse2 r ui2).1.suggestVisible = false ∧
     (handlePlanResponse2 r ui2).1.probVisible = false ∧
     (handlePlanResponse2 r ui2).1.lastResult = none ∧
     (handlePlanResponse2 r ui2).2 = false) := by
  simp [handlePlanResponse1, handlePlanResponse2, jsInterp, jsOr, hok, hnd, hm, hne]

/-- C9 (witness for `no_data_rendering`): the response
`{ok:true, no_data_for_window:true, message:"Y"}` against states holding a
previous result. -/
theorem no_data_rendering_witness :
    (handlePlanResponse1 ⟨true, none, some "Y", true, ""⟩
        ⟨none, "old", true, true⟩).1.planResult = "Y" ∧
    (handlePlanResponse2 ⟨true, none, some "Y", true, ""⟩
        ⟨none, "old", true, true, true,
          some ⟨true, none, none, false, "s"⟩⟩).1.lastResult = none :=
  ⟨(no_data_rendering ⟨true, none, some "Y", true, ""⟩ ⟨none, "old", true, true⟩
      ⟨none, "old", true, true, true, some ⟨true, none, none, false, "s"⟩⟩
      "Y" rfl rfl rfl (by decide)).1.1,
   (no_data_rendering ⟨true, none, some "Y", true, ""⟩ ⟨none, "old", true, true⟩
      ⟨none, "old", true, true, true, some ⟨true, none, none, false, "s"⟩⟩
      "Y" rfl rfl rfl (by decide)).2.2.2.2.2.2.1⟩

/-- C10 (counterexample): no `pct_of_normal` value makes both climatology
nudges of `fallbackFlipSeries` fire in the same call — the "unusual"
condition (`pct > 130` or `pct < 70`) and the "near normal" condition
(`90 ≤ pct ≤ 110`) are logically disjoint. -/
theorem no_pct_fires_both_nudges :
    ¬ ∃ pct : ℚ, (climTweaks (some ⟨some pct⟩)).1 ≠ 0 ∧
        (climTweaks (some ⟨some pct⟩)).2 ≠ 0 := by
  rintro ⟨pct, h1, h2⟩
  simp only [climTweaks] at h1 h2
  by_cases hc : 130 < pct ∨ pct < 70
  · by_cases hd : pct ≤ 110 ∧ 90 ≤ pct
    · rcases hc with hc | hc
      · linarith [hd.1]
      · linarith [hd.2]
    · rw [if_neg hd] at h2
      exact h2 rfl
  · rw [if_neg hc] at h1
    exact h1 rfl

/-- C10 (amended): for every `pct_of_normal`, at most one of the two
climatology tweaks of `fallbackFlipSeries` is nonzero; the conditions are
mutually exclusive by their arithmetic, though the source contains no
explicit mutual-exclusion check between the two `if` statements. -/
theorem at_most_one_nudge_fires (pct : ℚ) :
    (climTweaks (some ⟨some pct⟩)).1 = 0 ∨
      (climTweaks (some ⟨some pct⟩)).2 = 0 := by
  by_cases hc : 130 < pct ∨ pct < 70
  · right
    have hd : ¬ (pct ≤ 110 ∧ 90 ≤ pct) := by
      rintro ⟨h1, h2⟩
      rcases hc with hc | hc <;> linarith
    simp [climTweaks, hd]
  · left
    simp [climTweaks, hc]

end TripPlanner
